import Mathlib

/-!
Verification of the messaging-platform python agent SDK
(`hmdev/messaging/agent/...`) against its natural-language specification.

Python strings are modelled as their UTF-8 byte sequences (`List Nat`,
every element `< 256`); `None` becomes `Option.none`.  Pure cryptographic
routines (AES-128-CTR, SHA-256, HMAC, PBKDF2, base64, the custom key
schedule of `aes_ctr.py`) are embedded executably at the byte level.
Stateful methods of `AgentConnection` / `MessagingChannelApi` are embedded
as explicit state-passing functions; network and OS interactions (HTTP
responses, session-recovery file contents, RSA results, randomness,
wall-clock time) are passed in as explicit oracle arguments, mirroring the
data the source reads from those collaborators.
-/

/-- All elements of a byte list are actual bytes. -/
def Bytes (l : List Nat) : Prop := ∀ x ∈ l, x < 256

instance : DecidablePred Bytes := fun l =>
  decidable_of_iff (l.all (fun x => x < 256) = true) (by simp [Bytes, List.all_eq_true])

/-- UTF-8 bytes of an ASCII string literal (used to transcribe the string
literals appearing in the python source). -/
def ascii (s : String) : List Nat := s.data.map Char.toNat

/-- Python truthiness of an optional string (`None` and `""` are falsy). -/
def pyTruthy : Option (List Nat) → Bool
  | none => false
  | some l => !l.isEmpty

/-- Python `a or b` on optional strings: keeps `a` when truthy, else `b`. -/
def pyOr (a b : Option (List Nat)) : Option (List Nat) :=
  if pyTruthy a then a else b

/-! ## AES-128 block cipher (FIPS-197), byte-level

`aes_ctr.py` delegates to PyCryptodome's AES; the block cipher itself is
therefore embedded here from the AES standard.  The state is the flat
16-byte block in transmission order (`state[r][c] = block[4*c + r]`). -/

/-- The AES S-box as 16 rows of 16 bytes. -/
def sboxRows : List (List Nat) :=
  [ [0x63, 0x7c, 0x77, 0x7b, 0xf2, 0x6b, 0x6f, 0xc5, 0x30, 0x01, 0x67, 0x2b, 0xfe, 0xd7, 0xab, 0x76],
    [0xca, 0x82, 0xc9, 0x7d, 0xfa, 0x59, 0x47, 0xf0, 0xad, 0xd4, 0xa2, 0xaf, 0x9c, 0xa4, 0x72, 0xc0],
    [0xb7, 0xfd, 0x93, 0x26, 0x36, 0x3f, 0xf7, 0xcc, 0x34, 0xa5, 0xe5, 0xf1, 0x71, 0xd8, 0x31, 0x15],
    [0x04, 0xc7, 0x23, 0xc3, 0x18, 0x96, 0x05, 0x9a, 0x07, 0x12, 0x80, 0xe2, 0xeb, 0x27, 0xb2, 0x75],
    [0x09, 0x83, 0x2c, 0x1a, 0x1b, 0x6e, 0x5a, 0xa0, 0x52, 0x3b, 0xd6, 0xb3, 0x29, 0xe3, 0x2f, 0x84],
    [0x53, 0xd1, 0x00, 0xed, 0x20, 0xfc, 0xb1, 0x5b, 0x6a, 0xcb, 0xbe, 0x39, 0x4a, 0x4c, 0x58, 0xcf],
    [0xd0, 0xef, 0xaa, 0xfb, 0x43, 0x4d, 0x33, 0x85, 0x45, 0xf9, 0x02, 0x7f, 0x50, 0x3c, 0x9f, 0xa8],
    [0x51, 0xa3, 0x40, 0x8f, 0x92, 0x9d, 0x38, 0xf5, 0xbc, 0xb6, 0xda, 0x21, 0x10, 0xff, 0xf3, 0xd2],
    [0xcd, 0x0c, 0x13, 0xec, 0x5f, 0x97, 0x44, 0x17, 0xc4, 0xa7, 0x7e, 0x3d, 0x64, 0x5d, 0x19, 0x73],
    [0x60, 0x81, 0x4f, 0xdc, 0x22, 0x2a, 0x90, 0x88, 0x46, 0xee, 0xb8, 0x14, 0xde, 0x5e, 0x0b, 0xdb],
    [0xe0, 0x32, 0x3a, 0x0a, 0x49, 0x06, 0x24, 0x5c, 0xc2, 0xd3, 0xac, 0x62, 0x91, 0x95, 0xe4, 0x79],
    [0xe7, 0xc8, 0x37, 0x6d, 0x8d, 0xd5, 0x4e, 0xa9, 0x6c, 0x56, 0xf4, 0xea, 0x65, 0x7a, 0xae, 0x08],
    [0xba, 0x78, 0x25, 0x2e, 0x1c, 0xa6, 0xb4, 0xc6, 0xe8, 0xdd, 0x74, 0x1f, 0x4b, 0xbd, 0x8b, 0x8a],
    [0x70, 0x3e, 0xb5, 0x66, 0x48, 0x03, 0xf6, 0x0e, 0x61, 0x35, 0x57, 0xb9, 0x86, 0xc1, 0x1d, 0x9e],
    [0xe1, 0xf8, 0x98, 0x11, 0x69, 0xd9, 0x8e, 0x94, 0x9b, 0x1e, 0x87, 0xe9, 0xce, 0x55, 0x28, 0xdf],
    [0x8c, 0xa1, 0x89, 0x0d, 0xbf, 0xe6, 0x42, 0x68, 0x41, 0x99, 0x2d, 0x0f, 0xb0, 0x54, 0xbb, 0x16] ]

/-- S-box substitution of one byte. -/
def sub (x : Nat) : Nat := (sboxRows.getD (x / 16) []).getD (x % 16) 0

/-- Multiplication by x in GF(2^8) modulo the AES polynomial. -/
def xtime (b : Nat) : Nat := if b < 128 then 2 * b else ((2 * b) ^^^ 0x1b) % 256

/-- Multiplication by 2 in GF(2^8). -/
def m2 (b : Nat) : Nat := xtime b

/-- Multiplication by 3 in GF(2^8). -/
def m3 (b : Nat) : Nat := xtime b ^^^ b

/-- SubBytes on a flat state. -/
def subBytes (s : List Nat) : List Nat := s.map sub

/-- ShiftRows on a flat 16-byte state. -/
def shiftRows (s : List Nat) : List Nat :=
  [s.getD 0 0, s.getD 5 0, s.getD 10 0, s.getD 15 0,
   s.getD 4 0, s.getD 9 0, s.getD 14 0, s.getD 3 0,
   s.getD 8 0, s.getD 13 0, s.getD 2 0, s.getD 7 0,
   s.getD 12 0, s.getD 1 0, s.getD 6 0, s.getD 11 0]

/-- MixColumns applied to one 4-byte column. -/
def mixCol (a0 a1 a2 a3 : Nat) : List Nat :=
  [m2 a0 ^^^ m3 a1 ^^^ a2 ^^^ a3,
   a0 ^^^ m2 a1 ^^^ m3 a2 ^^^ a3,
   a0 ^^^ a1 ^^^ m2 a2 ^^^ m3 a3,
   m3 a0 ^^^ a1 ^^^ a2 ^^^ m2 a3]

/-- MixColumns on a flat 16-byte state (column c = bytes 4c..4c+3). -/
def mixColumns (s : List Nat) : List Nat :=
  mixCol (s.getD 0 0) (s.getD 1 0) (s.getD 2 0) (s.getD 3 0) ++
  mixCol (s.getD 4 0) (s.getD 5 0) (s.getD 6 0) (s.getD 7 0) ++
  mixCol (s.getD 8 0) (s.getD 9 0) (s.getD 10 0) (s.getD 11 0) ++
  mixCol (s.getD 12 0) (s.getD 13 0) (s.getD 14 0) (s.getD 15 0)

/-- AddRoundKey. -/
def addRoundKey (s k : List Nat) : List Nat := List.zipWith Nat.xor s k

/-- AES round constants (first byte of each rcon word). -/
def rconB : List Nat := [1, 2, 4, 8, 16, 32, 64, 128, 0x1b, 0x36]

/-- Word-level helpers for the key schedule. -/
def xorW (a b : List Nat) : List Nat := List.zipWith Nat.xor a b

/-- RotWord. -/
def rotWord (w : List Nat) : List Nat := w.drop 1 ++ w.take 1

/-- SubWord. -/
def subWord (w : List Nat) : List Nat := w.map sub

/-- One step of the AES-128 key expansion: appends word `ws.length` to `ws`,
iterated `n` times. -/
def expandLoop : Nat → List (List Nat) → List (List Nat)
  | 0, ws => ws
  | n + 1, ws =>
      let i := ws.length
      let prev := ws.getD (i - 1) []
      let temp :=
        if i % 4 = 0 then
          xorW (subWord (rotWord prev)) [rconB.getD (i / 4 - 1) 0, 0, 0, 0]
        else prev
      expandLoop n (ws ++ [xorW (ws.getD (i - 4) []) temp])

/-- The 44 words of the AES-128 key schedule for a 16-byte key. -/
def keySchedule (key : List Nat) : List (List Nat) :=
  expandLoop 40
    [[key.getD 0 0, key.getD 1 0, key.getD 2 0, key.getD 3 0],
     [key.getD 4 0, key.getD 5 0, key.getD 6 0, key.getD 7 0],
     [key.getD 8 0, key.getD 9 0, key.getD 10 0, key.getD 11 0],
     [key.getD 12 0, key.getD 13 0, key.getD 14 0, key.getD 15 0]]

/-- Round key `r` as a flat 16-byte list. -/
def roundKey (ws : List (List Nat)) (r : Nat) : List Nat :=
  ws.getD (4 * r) [] ++ ws.getD (4 * r + 1) [] ++ ws.getD (4 * r + 2) [] ++ ws.getD (4 * r + 3) []

/-- AES-128 encryption of one 16-byte block. -/
def aesEncryptBlock (key block : List Nat) : List Nat :=
  let ws := keySchedule key
  let st0 := addRoundKey block (roundKey ws 0)
  let stMain := (List.range 9).foldl
    (fun st r => addRoundKey (mixColumns (shiftRows (subBytes st))) (roundKey ws (r + 1))) st0
  addRoundKey (shiftRows (subBytes stMain)) (roundKey ws 10)

/-! ## AES-CTR (`aes_ctr.py`), specialised to the 128-bit calls made by
`MySecurity.encrypt/decrypt` (`n_bits = 128`, so `n_bytes = 16` and the
key-expansion copy is the identity on the 16 key-material bytes). -/

/-- Zero-padded password block: `pw_bytes[i] = pw_input[i] if i < len(pw_input) else 0`
for `i in range(16)`. -/
def pwBlock (pw : List Nat) : List Nat := (List.range 16).map (fun i => pw.getD i 0)

/-- Custom key schedule of `aes_ctr.py`: AES-ECB-encrypt the zero-padded
password block with itself; for 128 bits the key is that block. -/
def aesKey128 (pw : List Nat) : List Nat := aesEncryptBlock (pwBlock pw) (pwBlock pw)

/-- Big-endian 8-byte encoding (PyCryptodome's CTR counter suffix). -/
def be64 (n : Nat) : List Nat :=
  [n / 72057594037927936 % 256, n / 281474976710656 % 256, n / 1099511627776 % 256,
   n / 4294967296 % 256, n / 16777216 % 256, n / 65536 % 256, n / 256 % 256, n % 256]

/-- The 8-byte nonce of `AesCtr.encrypt`: bytes 0-1 = current-ms mod 1000
(little-endian), bytes 2-3 = two random bytes, bytes 4-7 = seconds
(little-endian).  `nowMs` is the wall clock in milliseconds and `rnd` the
16-bit random value, both oracle inputs. -/
def mkNonce (nowMs rnd : Nat) : List Nat :=
  let nonceMs := nowMs % 1000
  let nonceSec := nowMs / 1000
  [nonceMs % 256, nonceMs / 256 % 256, rnd % 256, rnd / 256 % 256,
   nonceSec % 256, nonceSec / 256 % 256, nonceSec / 65536 % 256, nonceSec / 16777216 % 256]

/-- CTR keystream: byte `i` comes from AES of block `nonce ‖ counter(i/16)`,
counter big-endian starting at 0. -/
def keystream (key nonce : List Nat) (len : Nat) : List Nat :=
  (List.range len).map (fun i => (aesEncryptBlock key (nonce ++ be64 (i / 16))).getD (i % 16) 0)

/-- XOR data with the CTR keystream (encryption = decryption in CTR mode). -/
def ctrXor (key nonce data : List Nat) : List Nat :=
  List.zipWith Nat.xor data (keystream key nonce data.length)

/-! ## Base64 (python `base64.b64encode/b64decode/urlsafe_b64encode`) -/

/-- Standard base64 alphabet. -/
def b64tableStd : List Nat :=
  ascii "ABCDEFGHIJKLMNOPQRSTUVWXYZabcdefghijklmnopqrstuvwxyz0123456789+/"

/-- URL-safe base64 alphabet. -/
def b64tableUrl : List Nat :=
  ascii "ABCDEFGHIJKLMNOPQRSTUVWXYZabcdefghijklmnopqrstuvwxyz0123456789-_"

/-- Base64 encoding with `=` padding (61 is the code of `=`). -/
def b64encodeWith (tbl : List Nat) : List Nat → List Nat
  | [] => []
  | [a] => [tbl.getD (a / 4) 0, tbl.getD (a % 4 * 16) 0, 61, 61]
  | [a, b] => [tbl.getD (a / 4) 0, tbl.getD (a % 4 * 16 + b / 16) 0, tbl.getD (b % 16 * 4) 0, 61]
  | a :: b :: c :: rest =>
      tbl.getD (a / 4) 0 :: tbl.getD (a % 4 * 16 + b / 16) 0 ::
      tbl.getD (b % 16 * 4 + c / 64) 0 :: tbl.getD (c % 64) 0 :: b64encodeWith tbl rest

/-- Base64 encoding without padding (the base64url-no-padding form named by
the specification). -/
def b64encodeNoPad (tbl : List Nat) : List Nat → List Nat
  | [] => []
  | [a] => [tbl.getD (a / 4) 0, tbl.getD (a % 4 * 16) 0]
  | [a, b] => [tbl.getD (a / 4) 0, tbl.getD (a % 4 * 16 + b / 16) 0, tbl.getD (b % 16 * 4) 0]
  | a :: b :: c :: rest =>
      tbl.getD (a / 4) 0 :: tbl.getD (a % 4 * 16 + b / 16) 0 ::
      tbl.getD (b % 16 * 4 + c / 64) 0 :: tbl.getD (c % 64) 0 :: b64encodeNoPad tbl rest

/-- Index of a code in an alphabet. -/
def idxOf : List Nat → Nat → Option Nat
  | [], _ => none
  | x :: xs, c => if x = c then some 0 else (idxOf xs c).map (· + 1)

/-- Base64 decoding (groups of four, `=` padding allowed only at the end). -/
def b64decodeWith (tbl : List Nat) : List Nat → Option (List Nat)
  | c1 :: c2 :: c3 :: c4 :: rest =>
      match idxOf tbl c1, idxOf tbl c2 with
      | some i1, some i2 =>
          if c3 = 61 ∧ c4 = 61 ∧ rest = [] then
            some [i1 * 4 + i2 / 16]
          else
            match idxOf tbl c3 with
            | some i3 =>
                if c4 = 61 ∧ rest = [] then
                  some [i1 * 4 + i2 / 16, i2 % 16 * 16 + i3 / 4]
                else
                  match idxOf tbl c4 with
                  | some i4 =>
                      (b64decodeWith tbl rest).map
                        (fun tail => (i1 * 4 + i2 / 16) :: (i2 % 16 * 16 + i3 / 4) ::
                                     (i3 % 4 * 64 + i4) :: tail)
                  | none => none
            | none => none
      | _, _ => none
  | [] => some []
  | _ => none

/-- Strip trailing `=` characters (python `.rstrip(b'=')`). -/
def rstripEq (l : List Nat) : List Nat := (l.reverse.dropWhile (fun c => c = 61)).reverse

/-- `AesCtr.encrypt(plaintext, password, 128)`: derive the key, build the
nonce, CTR-encrypt, return `base64(nonce ‖ ciphertext)`. -/
def AesCtr.encrypt (plaintext password : List Nat) (nowMs rnd : Nat) : List Nat :=
  let key := aesKey128 password
  let nonce := mkNonce nowMs rnd
  b64encodeWith b64tableStd (nonce ++ ctrXor key nonce plaintext)

/-- `AesCtr.decrypt(ciphertext_b64, password, 128)`: base64-decode, split off
the 8-byte nonce, CTR-decrypt.  A base64 failure raises in python and is
caught by `MySecurity.decrypt`, hence `Option`. -/
def AesCtr.decrypt (ciphertextB64 password : List Nat) : Option (List Nat) :=
  (b64decodeWith b64tableStd ciphertextB64).map
    (fun data => ctrXor (aesKey128 password) (data.take 8) (data.drop 8))

/-! ## SHA-256, HMAC-SHA256, PBKDF2 (used by `MySecurity.hash` and
`MySecurity.derive_channel_secret` through python's `hmac` / `cryptography`
libraries) -/

/-- SHA-256 round constants (FIPS 180-4, written in decimal). -/
def shaK : List Nat :=
  [1116352408, 1899447441, 3049323471, 3921009573, 961987163,
   1508970993, 2453635748, 2870763221, 3624381080, 310598401,
   607225278, 1426881987, 1925078388, 2162078206, 2614888103,
   3248222580, 3835390401, 4022224774, 264347078, 604807628,
   770255983, 1249150122, 1555081692, 1996064986, 2554220882,
   2821834349, 2952996808, 3210313671, 3336571891, 3584528711,
   113926993, 338241895, 666307205, 773529912, 1294757372,
   1396182291, 1695183700, 1986661051, 2177026350, 2456956037,
   2730485921, 2820302411, 3259730800, 3345764771, 3516065817,
   3600352804, 4094571909, 275423344, 430227734, 506948616,
   659060556, 883997877, 958139571, 1322822218, 1537002063,
   1747873779, 1955562222, 2024104815, 2227730452, 2361852424,
   2428436474, 2756734187, 3204031479, 3329325298]

/-- SHA-256 initial hash value (decimal). -/
def shaH0 : List Nat :=
  [1779033703, 3144134277, 1013904242, 2773480762, 1359893119,
   2600822924, 528734635, 1541459225]

/-- 32-bit right rotation. -/
def rotr (n x : Nat) : Nat := ((x >>> n) ||| (x <<< (32 - n))) % 4294967296

/-- SHA-256 big sigma 0. -/
def bsig0 (x : Nat) : Nat := rotr 2 x ^^^ rotr 13 x ^^^ rotr 22 x

/-- SHA-256 big sigma 1. -/
def bsig1 (x : Nat) : Nat := rotr 6 x ^^^ rotr 11 x ^^^ rotr 25 x

/-- SHA-256 small sigma 0. -/
def ssig0 (x : Nat) : Nat := rotr 7 x ^^^ rotr 18 x ^^^ (x >>> 3)

/-- SHA-256 small sigma 1. -/
def ssig1 (x : Nat) : Nat := rotr 17 x ^^^ rotr 19 x ^^^ (x >>> 10)

/-- SHA-256 choose. -/
def shaCh (x y z : Nat) : Nat := (x &&& y) ^^^ ((x ^^^ 4294967295) &&& z)

/-- SHA-256 majority. -/
def shaMaj (x y z : Nat) : Nat := (x &&& y) ^^^ (x &&& z) ^^^ (y &&& z)

/-- Extend the 16 message words of a block to 64. -/
def shaExtend : Nat → List Nat → List Nat
  | 0, ws => ws
  | n + 1, ws =>
      let i := ws.length
      shaExtend n (ws ++ [(ssig1 (ws.getD (i - 2) 0) + ws.getD (i - 7) 0 +
                           ssig0 (ws.getD (i - 15) 0) + ws.getD (i - 16) 0) % 4294967296])

/-- One SHA-256 compression round. -/
def shaRound (st : List Nat) (kw : Nat × Nat) : List Nat :=
  match st with
  | [a, b, c, d, e, f, g, h] =>
      let t1 := (h + bsig1 e + shaCh e f g + kw.1 + kw.2) % 4294967296
      let t2 := (bsig0 a + shaMaj a b c) % 4294967296
      [(t1 + t2) % 4294967296, a, b, c, (d + t1) % 4294967296, e, f, g]
  | st => st

/-- SHA-256 compression of one 16-word block into the running hash. -/
def shaCompress (h block : List Nat) : List Nat :=
  let ws := shaExtend 48 block
  let st := (shaK.zip ws).foldl shaRound h
  List.zipWith (fun x y => (x + y) % 4294967296) h st

/-- Big-endian words from bytes. -/
def bytesToWordsBE : List Nat → List Nat
  | b0 :: b1 :: b2 :: b3 :: rest =>
      (b0 * 16777216 + b1 * 65536 + b2 * 256 + b3) :: bytesToWordsBE rest
  | _ => []

/-- Big-endian bytes of a 32-bit word. -/
def wordToBytesBE (w : Nat) : List Nat :=
  [w / 16777216 % 256, w / 65536 % 256, w / 256 % 256, w % 256]

/-- Fold the word stream block by block (fuel = list length). -/
def shaChunks : Nat → List Nat → List Nat → List Nat
  | 0, _, h => h
  | fuel + 1, ws, h =>
      if ws = [] then h else shaChunks fuel (ws.drop 16) (shaCompress h (ws.take 16))

/-- SHA-256 of a byte sequence. -/
def sha256 (msg : List Nat) : List Nat :=
  let padded := msg ++ 128 :: List.replicate ((119 - msg.length % 64) % 64) 0 ++ be64 (8 * msg.length)
  let ws := bytesToWordsBE padded
  (shaChunks ws.length ws shaH0).flatMap wordToBytesBE

/-- HMAC-SHA256 (RFC 2104, block size 64). -/
def hmacSha256 (key msg : List Nat) : List Nat :=
  let k0 := if key.length > 64 then sha256 key else key
  let kp := k0 ++ List.replicate (64 - k0.length) 0
  sha256 ((kp.map (fun b => b ^^^ 0x5c)) ++ sha256 ((kp.map (fun b => b ^^^ 0x36)) ++ msg))

/-- XOR-accumulate the PBKDF2 U-chain: given `Uj`, iterate `U(j+1) = HMAC(pw, Uj)`. -/
def pbkdf2Us (pw : List Nat) : Nat → List Nat → List Nat → List Nat
  | 0, _, acc => acc
  | n + 1, u, acc =>
      let u2 := hmacSha256 pw u
      pbkdf2Us pw n u2 (xorW acc u2)

/-- One PBKDF2 output block `T_i`. -/
def pbkdf2Block (pw salt : List Nat) (c i : Nat) : List Nat :=
  let u1 := hmacSha256 pw (salt ++ [i / 16777216 % 256, i / 65536 % 256, i / 256 % 256, i % 256])
  pbkdf2Us pw (c - 1) u1 u1

/-- PBKDF2-HMAC-SHA256 (RFC 2898). -/
def pbkdf2HmacSha256 (pw salt : List Nat) (c dkLen : Nat) : List Nat :=
  (((List.range ((dkLen + 31) / 32)).map (fun j => pbkdf2Block pw salt c (j + 1))).flatten).take dkLen

/-- Lowercase hex digit. -/
def hexDigit (n : Nat) : Nat := if n < 10 then 48 + n else 87 + n

/-- Lowercase hex encoding (python `.hexdigest()`). -/
def hexBytes (l : List Nat) : List Nat := l.flatMap (fun b => [hexDigit (b / 16), hexDigit (b % 16)])

/-! ## Flat JSON objects

`my_security.py`, `agent_connection.py` and `password_utils.py` exchange
flat JSON objects whose values are strings (`json.dumps` of a dict of
strings and `json.loads` of such text).  A python-3.7 `json.dumps` of a
string dict is `{"k1": "v1", "k2": "v2"}` in insertion order with `", "`
and `": "` separators; the codes below serialize and parse exactly that
shape (34 = quote, 44 = comma, 58 = colon, 32 = space, 123/125 = braces).
Parsing returns `none` where `json.loads` would raise (or not produce a
dict), which the callers all treat through `try/except` fallbacks. -/

/-- Serialize one `"key": "value"` pair. -/
def serializePair (kv : List Nat × List Nat) : List Nat :=
  34 :: kv.1 ++ [34, 58, 32, 34] ++ kv.2 ++ [34]

/-- Serialize the comma-separated pair list. -/
def serializePairs : List (List Nat × List Nat) → List Nat
  | [] => []
  | [kv] => serializePair kv
  | kv :: rest => serializePair kv ++ [44, 32] ++ serializePairs rest

/-- `json.dumps` of a non-empty flat string dict. -/
def serializeFlatObj (l : List (List Nat × List Nat)) : List Nat :=
  123 :: serializePairs l ++ [125]

/-- Read up to the next quote. -/
def readUntilQuote : List Nat → Option (List Nat × List Nat)
  | [] => none
  | c :: rest =>
      if c = 34 then some ([], rest)
      else (readUntilQuote rest).map (fun p => (c :: p.1, p.2))

/-- Parse the pair list (fuel-driven; fuel bounds the input length). -/
def parsePairs : Nat → List Nat → Option (List (List Nat × List Nat))
  | 0, _ => none
  | fuel + 1, s =>
      match s with
      | 34 :: rest =>
          match readUntilQuote rest with
          | some (k, rest1) =>
              match rest1 with
              | 58 :: 32 :: 34 :: rest2 =>
                  match readUntilQuote rest2 with
                  | some (v, rest3) =>
                      match rest3 with
                      | [125] => some [(k, v)]
                      | 44 :: 32 :: rest4 => (parsePairs fuel rest4).map (fun l => (k, v) :: l)
                      | _ => none
                  | none => none
              | _ => none
          | none => none
      | _ => none

/-- `json.loads` restricted to the flat string-dict shape above. -/
def parseFlatObj (s : List Nat) : Option (List (List Nat × List Nat)) :=
  match s with
  | 123 :: rest => parsePairs rest.length rest
  | _ => none

/-- `dict.get` on a parsed object. -/
def objGet : List (List Nat × List Nat) → List Nat → Option (List Nat)
  | [], _ => none
  | kv :: rest, k => if kv.1 = k then some kv.2 else objGet rest k

/-! ## `MySecurity` (`security/my_security.py`) -/

/-- `MySecurity.hash(msg, key)`: lowercase-hex HMAC-SHA256 with the key as
HMAC key. -/
def MySecurity.hash (msg key : List Nat) : List Nat := hexBytes (hmacSha256 key msg)

/-- `MySecurity.encrypt`: AES-CTR at 128 bits (the wall clock and the two
random bytes are oracle inputs). -/
def MySecurity.encrypt (plain key : List Nat) (nowMs rnd : Nat) : List Nat :=
  AesCtr.encrypt plain key nowMs rnd

/-- `MySecurity.decrypt`: AES-CTR decryption; failures become `none`. -/
def MySecurity.decrypt (cipher key : List Nat) : Option (List Nat) :=
  AesCtr.decrypt cipher key

/-- `MySecurity.encrypt_and_sign(message, key)`: the JSON dict
`{"cipher": encrypt(message,key), "hash": hash(message,key)}` in that
insertion order. -/
def MySecurity.encrypt_and_sign (message key : List Nat) (nowMs rnd : Nat) : List Nat :=
  serializeFlatObj
    [(ascii "cipher", MySecurity.encrypt message key nowMs rnd),
     (ascii "hash", MySecurity.hash message key)]

/-- `MySecurity.decrypt_and_verify(cipher_msg_str, key)`: parse the JSON,
decrypt the `cipher` field (default `""`), re-hash the plaintext and
compare with the `hash` field (default `""`); any failure yields `None`. -/
def MySecurity.decrypt_and_verify (cipherMsgStr key : List Nat) : Option (List Nat) :=
  match parseFlatObj cipherMsgStr with
  | none => none
  | some obj =>
      match MySecurity.decrypt ((objGet obj (ascii "cipher")).getD []) key with
      | none => none
      | some message =>
          if MySecurity.hash message key = (objGet obj (ascii "hash")).getD []
          then some message else none

/-- `decrypt_and_verify` as invoked with a possibly absent channel secret: a
`None` key makes `hash`/`decrypt` raise inside, which the `except` branch
turns into `None`. -/
def decryptAndVerifyOpt (content : List Nat) (secret : Option (List Nat)) : Option (List Nat) :=
  secret.bind (fun key => MySecurity.decrypt_and_verify content key)

/-- `MySecurity.derive_channel_secret(channel_name, password)`:
`'channel_' + urlsafe_b64encode(PBKDF2-HMAC-SHA256((name+password).encode(),
salt=b"messaging-platform", 100000, 32)).rstrip(b'=')`. -/
def MySecurity.derive_channel_secret (channel_name password : List Nat) : List Nat :=
  ascii "channel_" ++
    rstripEq (b64encodeWith b64tableUrl
      (pbkdf2HmacSha256 (channel_name ++ password) (ascii "messaging-platform") 100000 32))

/-- Modelled from the spec's words (§4.1): "PBKDF2-HMAC-SHA256, salt literal
`"messaging-platform"`, 100,000 iterations, 32-byte output, encoded
base64url without padding, prefixed `channel_`", over the concatenation
channelName ‖ password.  Stated for comparison with the source definition
above. -/
def deriveChannelSecretSpec (channelName password : List Nat) : List Nat :=
  ascii "channel_" ++
    b64encodeNoPad b64tableUrl
      (pbkdf2HmacSha256 (channelName ++ password) (ascii "messaging-platform") 100000 32)

/-! ## Data model (`api/models.py` and wire shapes) -/

/-- `models.ReceiveConfig` (all fields optional, `pollSource` defaults `"AUTO"`). -/
structure ReceiveConfig where
  globalOffset : Option Int := none
  localOffset : Option Int := none
  limit : Option Int := none
  pollSource : Option (List Nat) := some (ascii "AUTO")
  deriving DecidableEq, Repr

/-- An event dict as it flows through the receive path (`to` and `from` are
Lean keywords, hence `toAgent`/`fromAgent`; a key missing from the dict is
`none`). -/
structure Event where
  type : Option (List Nat) := none
  toAgent : Option (List Nat) := none
  fromAgent : Option (List Nat) := none
  date : Option Int := none
  content : Option (List Nat) := none
  encrypted : Bool := false
  deriving DecidableEq, Repr

/-- `models.EventMessageResult`. -/
structure EventMessageResult where
  events : List Event
  nextGlobalOffset : Option Int := none
  nextLocalOffset : Option Int := none
  ephemeralEvents : Option (List Event) := none
  deriving DecidableEq, Repr

/-- The raw `state` / `metadata` JSON object of a connect response (what the
server sends, before the client copies it into `ChannelState`). -/
structure StateDict where
  topicName : Option (List Nat) := none
  channelId : Option (List Nat) := none
  channelName : Option (List Nat) := none
  channelPassword : Option (List Nat) := none
  globalOffset : Option Int := none
  localOffset : Option Int := none
  originalGlobalOffset : Option Int := none
  originalLocalOffset : Option Int := none
  deriving DecidableEq, Repr

/-- `models.ChannelState` (a dataclass whose eight fields all default to
`None`). -/
structure ChannelState where
  topicName : Option (List Nat) := none
  channelId : Option (List Nat) := none
  channelName : Option (List Nat) := none
  channelPassword : Option (List Nat) := none
  globalOffset : Option Int := none
  localOffset : Option Int := none
  originalGlobalOffset : Option Int := none
  originalLocalOffset : Option Int := none
  deriving DecidableEq, Repr

/-- The `data` dict of a successful `/connect` envelope. -/
structure ConnectData where
  sessionId : Option (List Nat) := none
  date : Option Int := none
  state : Option StateDict := none
  channelId : Option (List Nat) := none
  deriving DecidableEq, Repr

/-- `models.ConnectResponse`. -/
structure ConnectResponse where
  sessionId : Option (List Nat) := none
  channelId : Option (List Nat) := none
  date : Option Int := none
  state : Option ChannelState := none
  deriving DecidableEq, Repr

/-- One item of a `/list-agents` response (the server includes
`connectionTime` here). -/
structure WireAgent where
  agentName : Option (List Nat) := none
  date : Option Int := none
  connectionTime : Option Int := none
  deriving DecidableEq, Repr

/-- `models.AgentInfo`: note that the dataclass has fields `agentName`,
`date`, `meta` and nothing else — in particular no `connectionTime`
attribute; the wire item is retained only inside `meta`. -/
structure AgentInfo where
  agentName : List Nat
  date : Option Int := none
  meta : Option WireAgent := none
  deriving DecidableEq, Repr

/-- Opaque handle for an RSA key pair `(private_obj, public_pem)`; RSA
objects are produced by an external library, modelled by identity tokens. -/
structure RsaKeyPair where
  privId : Nat
  pubPem : List Nat
  deriving DecidableEq, Repr

/-- Mutable state of a `MessagingChannelApi` instance.  `channel_password`
does not exist as an attribute until the password flow `setattr`s it, so an
absent attribute is `none`; `udp_closed` records whether
`self._udp_client.close()` has run. -/
structure ApiState where
  channel_secret : Option (List Nat) := none
  ready_state : Bool := false
  session_id : Option (List Nat) := none
  channel_state : Option ChannelState := none
  channel_password : Option (List Nat) := none
  udp_closed : Bool := false
  deriving DecidableEq, Repr

/-- Mutable state of an `AgentConnection` instance (constructor defaults of
`agent_connection.py`). -/
structure AgentState where
  connection_time : Option Int := none
  agent_name : Option (List Nat) := none
  channel_id : Option (List Nat) := none
  channel_secret : Option (List Nat) := none
  initial_receive_config : Option ReceiveConfig := none
  current_receive_config : Option ReceiveConfig := none
  check_last_session : Bool := true
  session_id : Option (List Nat) := none
  ready_state : Bool := false
  channel_name : Option (List Nat) := none
  channel_password : Option (List Nat) := none
  key_pair : Option RsaKeyPair := none
  pending_private_key : Option Nat := none
  pending_request_id : Option (List Nat) := none
  api : ApiState := {}
  deriving DecidableEq, Repr

/-- `AgentConnection.is_ready`: ready flag set and a session id present. -/
def AgentConnection.is_ready (st : AgentState) : Bool :=
  st.ready_state && st.session_id.isSome

/-! ## Receive-path decryption helpers

Two near-identical helpers exist in the source.  The API-level one
(`messaging_channel_api.py`, `_verify_and_decrypt_message`) assigns
`item["content"] = plain; item["encrypted"] = False` unconditionally inside
`if item.get("encrypted")` — also when `decrypt_and_verify` returned
`None`.  The connection-level one (`agent_connection.py`,
`_verify_and_decrypt_message`) only rewrites the event when the plaintext
is not `None`. -/

/-- `MessagingChannelApi._verify_and_decrypt_message` (in-place mutation of
one event dict, modelled functionally). -/
def MessagingChannelApi.verify_and_decrypt_message (secret : Option (List Nat)) (item : Event) : Event :=
  if item.encrypted then
    { item with content := decryptAndVerifyOpt (item.content.getD []) secret,
                encrypted := false }
  else item

/-- `AgentConnection._verify_and_decrypt_message`. -/
def AgentConnection.verify_and_decrypt_message (secret : Option (List Nat)) (ev : Event) : Event :=
  if ev.encrypted then
    match decryptAndVerifyOpt (ev.content.getD []) secret with
    | some plain => { ev with content := some plain, encrypted := false }
    | none => ev
  else ev

/-- The `data` dict of a successful `/pull` envelope. -/
structure PullData where
  events : List Event := []
  ephemeralEvents : List Event := []
  nextGlobalOffset : Option Int := none
  nextLocalOffset : Option Int := none
  deriving DecidableEq, Repr

/-- `MessagingChannelApi.receive`, success branch: every event of both
arrays is passed through `_verify_and_decrypt_message`; `ephemeralEvents`
is `None` when the processed list is empty. -/
def MessagingChannelApi.receiveSuccess (st : ApiState) (d : PullData) : EventMessageResult :=
  let processed := d.events.map (MessagingChannelApi.verify_and_decrypt_message st.channel_secret)
  let ephemeral := d.ephemeralEvents.map (MessagingChannelApi.verify_and_decrypt_message st.channel_secret)
  { events := processed,
    nextGlobalOffset := d.nextGlobalOffset,
    nextLocalOffset := d.nextLocalOffset,
    ephemeralEvents := if ephemeral.isEmpty then none else some ephemeral }

/-! ## Disconnect (`MessagingChannelApi.disconnect`,
`AgentConnection.disconnect`) -/

/-- `MessagingChannelApi.disconnect`: close the UDP client first (close
errors are swallowed), then POST `/disconnect`.  `server` is `none` when
the request or the JSON parse raised (caught, `False`), `some ok` when a
response parsed with envelope status success iff `ok`. -/
def MessagingChannelApi.disconnect (st : ApiState) (server : Option Bool) : ApiState × Bool :=
  let st1 := { st with udp_closed := true }
  match server with
  | none => (st1, false)
  | some ok => ({ st1 with ready_state := false, session_id := none }, ok)

/-- `AgentConnection.disconnect`. -/
def AgentConnection.disconnect (st : AgentState) (server : Option Bool) : AgentState × Bool :=
  if !AgentConnection.is_ready st then (st, false)
  else
    let r := MessagingChannelApi.disconnect st.api server
    let st1 := { st with api := r.1 }
    if r.2 then
      ({ st1 with session_id := none, ready_state := false,
                  pending_private_key := none, pending_request_id := none,
                  key_pair := none }, true)
    else (st1, false)

/-! ## Connect (`MessagingChannelApi.connect` success-envelope path,
`AgentConnection._connect_internal`) -/

/-- `MessagingChannelApi.connect`.  `createChannel` is the outcome of the
`/create-channel` attempt (`none` = failed, soft); `server` is the parsed
`/connect` envelope: `none` when the request raised or the envelope was not
a success (the legacy bare-dict / raw-text acceptance paths of lines
169-187 are outside the scope of the claims settled here).  The payload
itself (channelId/name/password-hash/agentContext fields) is wire data with
no further effect on client state and is not modelled. -/
def MessagingChannelApi.connect (st : ApiState)
    (channel_name channel_password : Option (List Nat)) (agent_name : List Nat)
    (session_id : Option (List Nat)) (channel_id : Option (List Nat))
    (createChannel : Option (List Nat)) (server : Option ConnectData) :
    ApiState × ConnectResponse :=
  -- lines 108-111: derive the secret only when name and password are truthy
  let derived := MySecurity.derive_channel_secret (channel_name.getD []) (channel_password.getD [])
  let st1 :=
    if pyTruthy channel_name && pyTruthy channel_password then
      { st with channel_secret := some derived }
    else st
  -- lines 114-123: channelId, else create-channel fallback, else ValueError
  let cid := if pyTruthy channel_id then channel_id
             else if pyTruthy channel_name && pyTruthy channel_password then createChannel
             else none
  if !pyTruthy channel_id && !(pyTruthy channel_name && pyTruthy channel_password) then
    (st1, {})    -- ValueError raised, caught at line 189: ConnectResponse()
  else
    match server with
    | none => (st1, {})   -- request/parse exception or non-success envelope
    | some data =>
        -- lines 146-167
        let session := data.sessionId
        let stateOpt : Option ChannelState := data.state.map (fun md =>
          -- ChannelState(topicName=…, channelId=…, channelName=…, channelPassword=…):
          -- the offset fields are left at their dataclass default None
          { topicName := md.topicName, channelId := md.channelId,
            channelName := md.channelName, channelPassword := md.channelPassword })
        let channelIdResp : Option (List Nat) :=
          match stateOpt with
          | some s => pyOr s.channelId data.channelId
          | none => none
        let newChannelState := match stateOpt with
          | some s => some s
          | none => st1.channel_state
        let st2 := { st1 with
                     ready_state := true,
                     session_id := session,
                     channel_state := newChannelState }
        (st2, { sessionId := session,
                channelId := channelIdResp,
                date := data.date,
                state := stateOpt })

/-- Externally observable side effects of `_connect_internal`, in program
order. -/
inductive ConnectEffect where
  | sessionLookup
  | rsaKeyGen
  | wireConnect
  | sessionSave
  | passwordKick
  deriving DecidableEq, Repr

/-- `AgentConnection._connect_internal`.  Oracles: `sessLoad` is the saved
session id found by the recovery store, `keyGen` the generated RSA key pair
(`none` when `rsa_generate` raised — the fallback of line 171),
`createChannel`/`server` as in `MessagingChannelApi.connect`.  The
`request_password` kick of lines 250-255 is recorded as an effect; its
internal state changes are not modelled (in every scenario settled below
its trigger condition is false or the function returns earlier). -/
def AgentConnection.connect_internal (st : AgentState)
    (channel_id channel_name channel_password : Option (List Nat)) (agent_name : List Nat)
    (sessLoad : Option (List Nat)) (keyGen : Option RsaKeyPair)
    (createChannel : Option (List Nat)) (server : Option ConnectData) :
    AgentState × List ConnectEffect × Except (List Nat) Bool :=
  -- line 154: reject while ready with a session
  if st.ready_state && st.session_id.isSome then
    (st, [], Except.error (ascii "already connected"))
  else
    -- lines 157-159: session recovery lookup
    let lookedUp := st.session_id.isNone && st.check_last_session
    let st1 := if lookedUp then { st with session_id := sessLoad } else st
    let eff1 := if lookedUp then [ConnectEffect.sessionLookup] else []
    -- lines 162-164
    let st2 := { st1 with
                 agent_name := some agent_name,
                 channel_name := channel_name,
                 channel_password := channel_password }
    -- lines 167-171
    let st3 := { st2 with key_pair := keyGen }
    -- lines 174-178: both overloads call the API; with a channelId the
    -- name/password arguments are passed as None
    let apiCall :=
      if channel_id.isSome then
        MessagingChannelApi.connect st3.api none none agent_name st3.session_id channel_id
          createChannel server
      else
        MessagingChannelApi.connect st3.api channel_name channel_password agent_name
          st3.session_id none createChannel server
    let st4 := { st3 with api := apiCall.1 }
    let resp := apiCall.2
    let effs := eff1 ++ [ConnectEffect.rsaKeyGen, ConnectEffect.wireConnect]
    -- line 183: `if resp and resp.sessionId:` (truthiness)
    if pyTruthy resp.sessionId then
      let st5 := { st4 with
                   session_id := resp.sessionId,
                   connection_time := resp.date,
                   ready_state := true }
      -- lines 188-193
      let st6 := { st5 with channel_id := pyOr resp.channelId (resp.state.bind (fun s => s.channelId)) }
      -- lines 202-230
      let md := resp.state
      let ogo := md.bind (fun s => s.originalGlobalOffset)
      let go := md.bind (fun s => s.globalOffset)
      let lo := md.bind (fun s => s.localOffset)
      let startOffset : Int := match ogo with
        | some v => v
        | none => go.getD 0     -- `(go or 0)`
      let st7 :=
        if go.isSome || ogo.isSome then
          { st6 with
            initial_receive_config := some { globalOffset := some startOffset,
                                             localOffset := some 0, limit := some 20 },
            current_receive_config := some { globalOffset := some (go.getD 0),
                                             localOffset := some (lo.getD 0), limit := some 20 } }
        else
          { st6 with
            initial_receive_config := some { globalOffset := some 0, localOffset := some 0,
                                             limit := some 20 },
            current_receive_config := some { globalOffset := some 0, localOffset := some 0,
                                             limit := some 20 } }
      -- lines 233-247: local secret derivation (`is not None` checks)
      let st8 :=
        if st7.channel_name.isSome && st7.channel_password.isSome then
          let secret := MySecurity.derive_channel_secret (st7.channel_name.getD [])
                          (st7.channel_password.getD [])
          { st7 with channel_secret := some secret,
                     api := { st7.api with channel_secret := some secret } }
        else st7
      -- lines 250-255: password kick condition (`is None` checks)
      let kick := st8.channel_secret.isNone && st8.api.channel_secret.isNone &&
                  st8.api.channel_password.isNone
      -- lines 257-260
      let effs2 := effs ++ (if kick then [ConnectEffect.passwordKick] else []) ++
                   (if pyTruthy st8.session_id then [ConnectEffect.sessionSave] else [])
      (st8, effs2, Except.ok true)
    else
      (st4, effs, Except.ok false)

/-! ## Receive pump iteration (`AgentConnection._run_receive` loop body) -/

/-- One iteration of the `_run_receive` loop after the pull: the dispatched
batches (ephemeral first, then persistent) and the next offset range.
Offsets are rewritten only inside the `if events:` block, from
`nextGlobalOffset` / `nextLocalOffset` when each is present. -/
def AgentConnection.runReceiveStep (offset_range : ReceiveConfig)
    (resp : Option EventMessageResult) : ReceiveConfig × List (List Event) :=
  match resp with
  | none => (offset_range, [])
  | some r =>
      let ephemeral := (r.ephemeralEvents).getD []
      let batches1 := if ephemeral.isEmpty then [] else [ephemeral]
      let events := r.events
      if events.isEmpty then (offset_range, batches1)
      else
        let cfg1 := { offset_range with
          globalOffset := match r.nextGlobalOffset with
                          | some g => some g
                          | none => offset_range.globalOffset }
        let cfg2 := { cfg1 with
          localOffset := match r.nextLocalOffset with
                         | some l => some l
                         | none => cfg1.localOffset }
        (cfg2, batches1 ++ [events])

/-! ## Active agents and host election (`MessagingChannelApi.get_active_agents`,
`AgentConnection.is_host_agent`) -/

/-- `MessagingChannelApi.get_active_agents` success path: each wire item
becomes `AgentInfo(agentName=item.get('agentName',''), date=item.get('date'),
meta=item)`. -/
def MessagingChannelApi.get_active_agents (items : List WireAgent) : List AgentInfo :=
  items.map (fun w => { agentName := w.agentName.getD [], date := w.date, meta := some w })

/-- `AgentConnection.is_host_agent`.  The loop reads
`getattr(agent, 'agentName', None) or getattr(agent, 'name', None)` — the
dataclass has `agentName` but no `name` attribute — and
`getattr(agent, 'connectionTime', None)`, which is always `None` because
`AgentInfo` has no such attribute (the wire value only sits inside `meta`).
The fold state is `(earliest_agent, earliest_time)`. -/
def AgentConnection.is_host_agent (st : AgentState) (agents_info : Option (List AgentInfo)) : Bool :=
  if !AgentConnection.is_ready st then false
  else
    match agents_info with
    | none => true
    | some [] => true
    | some agents =>
        let res := agents.foldl
          (fun (acc : Option (List Nat) × Option Int) agent =>
            let agentName := pyOr (some agent.agentName) none
            let connectionTime : Option Int := none
            let et := if agentName = st.agent_name then connectionTime else acc.2
            match connectionTime with
            | some ct =>
                if et.isNone || decide (ct < et.getD 0) then (agentName, some ct)
                else (acc.1, et)
            | none => (acc.1, et))
          (st.agent_name, (none : Option Int))
        decide (res.1 = st.agent_name)

/-! ## Password-reply handling (`AgentConnection._handle_password_reply` and
the per-event filter of `password_utils.wait_for_password_reply`) -/

/-- Observable crypto side effect of the reply handler. -/
inductive ReplyEffect where
  | rsaDecrypt (cipherB64 : List Nat)
  deriving DecidableEq, Repr

/-- `AgentConnection._handle_password_reply`.  `rsa` is the oracle for
`MySecurity.rsa_decrypt` with the pending private key (`none` = raise,
caught at line 638). -/
def AgentConnection.handle_password_reply (st : AgentState) (ev : Event)
    (rsa : List Nat → Option (List Nat)) : AgentState × List ReplyEffect :=
  if !pyTruthy ev.content || st.pending_private_key.isNone then (st, [])
  else
    let content := ev.content.getD []
    -- lines 577-583: content may be a JSON wrapper or raw base64
    let cipherB64 : Option (List Nat) :=
      match parseFlatObj content with
      | some parsed => pyOr (objGet parsed (ascii "cipher")) (objGet parsed (ascii "content"))
      | none => some content
    if !pyTruthy cipherB64 then (st, [])
    else
      let c := cipherB64.getD []
      match rsa c with
      | none => (st, [ReplyEffect.rsaDecrypt c])
      | some dec =>
          -- lines 592-602: plaintext is a bare password or a JSON dict
          let parsedDec := parseFlatObj dec
          let channelName : Option (List Nat) :=
            match parsedDec with
            | some p => if pyTruthy (objGet p (ascii "channelName"))
                        then objGet p (ascii "channelName") else none
            | none => none
          let channelPassword : List Nat :=
            match parsedDec with
            | some p => if pyTruthy (objGet p (ascii "channelPassword"))
                        then (objGet p (ascii "channelPassword")).getD [] else dec
            | none => dec
          -- lines 604-607
          let st1 := if pyTruthy channelName && !pyTruthy st.channel_name
                     then { st with channel_name := channelName } else st
          let st2 := { st1 with channel_password := some channelPassword }
          -- lines 609-636: derive+install, or stash the raw password on the api
          if pyTruthy st2.channel_name && pyTruthy st2.channel_password then
            let secret := MySecurity.derive_channel_secret (st2.channel_name.getD [])
                            (st2.channel_password.getD [])
            ({ st2 with channel_secret := some secret,
                        api := { st2.api with channel_secret := some secret } },
             [ReplyEffect.rsaDecrypt c])
          else
            ({ st2 with api := { st2.api with channel_password := some channelPassword } },
             [ReplyEffect.rsaDecrypt c])

/-- Per-event acceptance filter of `password_utils.wait_for_password_reply`
(lines 58-91): returns the base64 ciphertext the loop would go on to
RSA-decrypt, or `none` where the loop `continue`s past the event. -/
def waitPasswordReplyAccepts (agent_name : Option (List Nat)) (connection_time : Option Int)
    (expected_request_id : Option (List Nat)) (ev : Event) : Option (List Nat) :=
  let edate := ev.date.getD 0
  if ev.type ≠ some (ascii "password-reply") ∨ ev.toAgent ≠ agent_name then none
  else if (match connection_time with
           | some ct => decide (edate ≤ ct)
           | none => false) then none
  else if !pyTruthy ev.content then none
  else
    let content := ev.content.getD []
    let cipher : Option (List Nat) :=
      match parseFlatObj content with
      | some parsed =>
          -- "If a requestId is present, it must match expected_request_id when provided"
          if (objGet parsed (ascii "requestId")).isSome && expected_request_id.isSome &&
             decide (objGet parsed (ascii "requestId") ≠ expected_request_id)
          then none
          else pyOr (objGet parsed (ascii "cipher")) (objGet parsed (ascii "content"))
      | none => some content
    if !pyTruthy cipher then none else cipher

/-! ## Concrete fixtures for the claim theorems -/

/-- A ready connection holding a channel secret, pending RSA material and a
key pair. -/
def stC1 : AgentState := {
  ready_state := true,
  session_id := some (ascii "S1"),
  channel_secret := some (ascii "sec"),
  pending_private_key := some 7,
  pending_request_id := some (ascii "R1"),
  key_pair := some ⟨1, ascii "pem"⟩ }

/-- An encrypted event whose content fails `decrypt_and_verify` (it is not
even the JSON `{cipher, hash}` wrapper). -/
def evC2 : Event := {
  type := some (ascii "chat-text"),
  content := some (ascii "garbage"),
  encrypted := true }

/-- API state with an installed channel secret. -/
def apiC2 : ApiState := { channel_secret := some (ascii "sec") }

/-- The `/connect` response of the C3 scenario: `{status:"success",
data:{sessionId:"S1", date:100, state:{channelId:"C1", globalOffset:42,
localOffset:7, originalGlobalOffset:0}}}`. -/
def srvC3 : ConnectData := {
  sessionId := some (ascii "S1"),
  date := some 100,
  state := some {
    channelId := some (ascii "C1"),
    globalOffset := some 42,
    localOffset := some 7,
    originalGlobalOffset := some 0 } }

/-- `connect("default", "default", "a1")` on a fresh connection against the
C3 mock server (no saved session, key generation succeeds, create-channel
fails softly). -/
def resC3 : AgentState × List ConnectEffect × Except (List Nat) Bool :=
  AgentConnection.connect_internal {} none (some (ascii "default")) (some (ascii "default"))
    (ascii "a1") none (some ⟨0, []⟩) none (some srvC3)

/-- Three active agents with distinct `connectionTime`s 100 < 200 < 300, as
returned by `/list-agents`. -/
def wireC4 : List WireAgent :=
  [{ agentName := some (ascii "a1"), connectionTime := some 100 },
   { agentName := some (ascii "a2"), connectionTime := some 200 },
   { agentName := some (ascii "a3"), connectionTime := some 300 }]

/-- The same list after `get_active_agents` packaging. -/
def agentsC4 : List AgentInfo := MessagingChannelApi.get_active_agents wireC4

/-- A ready connection named `a` (instantiated at `a1`, `a2`, `a3`). -/
def stC4 (a : String) : AgentState :=
  { ready_state := true, session_id := some (ascii "S"), agent_name := some (ascii a) }

/-- A password-reply whose JSON content carries `requestId` `R2` — different
from the pending request id `R1` — plus a ciphertext. -/
def evC7 : Event := {
  type := some (ascii "password-reply"),
  toAgent := some (ascii "bob"),
  date := some 50,
  content := some (serializeFlatObj [(ascii "requestId", ascii "R2"), (ascii "cipher", ascii "QUJD")]) }

/-- Requester state: pending request `R1` with a live private key. -/
def stC7 : AgentState := {
  ready_state := true,
  session_id := some (ascii "S"),
  agent_name := some (ascii "bob"),
  connection_time := some 10,
  pending_private_key := some 7,
  pending_request_id := some (ascii "R1"),
  channel_name := some (ascii "room") }

/-- RSA oracle: decryption of the reply ciphertext yields the password. -/
def rsaC7 : List Nat → Option (List Nat) := fun _ => some (ascii "pw123")

/-- The auto-intercept outcome on the mismatched reply. -/
def resC7 : AgentState × List ReplyEffect := AgentConnection.handle_password_reply stC7 evC7 rsaC7

/-- Offset range before the pull of the C8 scenario. -/
def cfgC8 : ReceiveConfig := { globalOffset := some 0, localOffset := some 0, limit := some 20 }

/-- A successful pull whose `events` array is empty but which carries an
ephemeral event and fresh `nextGlobalOffset`/`nextLocalOffset` values. -/
def respC8 : EventMessageResult := {
  events := [],
  nextGlobalOffset := some 5,
  nextLocalOffset := some 3,
  ephemeralEvents := some [{ type := some (ascii "chat-text") }] }

/-- A connection in READY state (ready flag and session id). -/
def stC9 : AgentState := { ready_state := true, session_id := some (ascii "S1") }

/-- Plaintext and keys for the C5/C10 witnesses: the two C10 keys agree on
their first 16 bytes (8-byte prefix fixed by `channel_` plus 8 more). -/
def mW : List Nat := ascii "hi"

/-- C5 witness key. -/
def kW : List Nat := ascii "k1"

/-- C10 witness keys. -/
def k1W : List Nat := ascii "channel_AAAAAAAAxx"

/-- Second C10 witness key, same first 16 bytes, different afterwards. -/
def k2W : List Nat := ascii "channel_AAAAAAAAyyyy"

/-! # Theorems

General-purpose lemmas first, then byte-validity of the crypto pipeline,
the round-trip lemmas, and finally one theorem (plus witness or
counterexample) per claim. -/

/-- Propagate a property through a default-guarded list lookup. -/
theorem getD_prop {α : Type} {P : α → Prop} {d : α} (hd : P d) :
    ∀ (l : List α), (∀ y ∈ l, P y) → ∀ i, P (l.getD i d)
  | [], _, _ => hd
  | a :: _, h, 0 => h a (List.mem_cons_self _ _)
  | _ :: l, h, i + 1 => getD_prop hd l (fun y hy => h y (List.mem_cons_of_mem _ hy)) i

/-- A byte list yields bytes under lookup. -/
theorem bytes_getD {l : List Nat} (h : Bytes l) (i : Nat) : l.getD i 0 < 256 :=
  getD_prop (by norm_num) l h i

/-- The S-box produces bytes on any input. -/
theorem sub_lt (x : Nat) : sub x < 256 := by
  have hrows : ∀ r ∈ sboxRows, ∀ y ∈ r, y < 256 := by decide
  exact bytes_getD (getD_prop (by intro y hy; cases hy) sboxRows hrows (x / 16)) (x % 16)

/-- Bytes are closed under 8-bit XOR. -/
theorem xor_lt8 {a b : Nat} (ha : a < 256) (hb : b < 256) : a ^^^ b < 256 := by
  have h8 : (256 : Nat) = 2 ^ 8 := by norm_num
  rw [h8] at ha hb ⊢
  exact Nat.xor_lt_two_pow ha hb

/-- xtime produces bytes on any input. -/
theorem xtime_lt (b : Nat) : xtime b < 256 := by
  unfold xtime
  split
  · omega
  · exact Nat.mod_lt _ (by norm_num)

/-- GF(2^8) doubling produces bytes. -/
theorem m2_lt (b : Nat) : m2 b < 256 := xtime_lt b

/-- GF(2^8) tripling produces bytes. -/
theorem m3_lt {b : Nat} (hb : b < 256) : m3 b < 256 := xor_lt8 (xtime_lt b) hb

/-- Byte lists are closed under append. -/
theorem bytes_append {a b : List Nat} (ha : Bytes a) (hb : Bytes b) : Bytes (a ++ b) := by
  intro x hx
  rcases List.mem_append.mp hx with h | h
  · exact ha x h
  · exact hb x h

/-- Byte lists are closed under pointwise XOR. -/
theorem bytes_zipWith_xor : ∀ {a b : List Nat}, Bytes a → Bytes b →
    Bytes (List.zipWith Nat.xor a b)
  | [], _, _, _ => by intro x hx; cases hx
  | _ :: _, [], _, _ => by intro x hx; cases hx
  | a :: as, b :: bs, ha, hb => by
      intro x hx
      rcases List.mem_cons.mp hx with rfl | hx
      · exact xor_lt8 (ha a (List.mem_cons_self _ _)) (hb b (List.mem_cons_self _ _))
      · exact bytes_zipWith_xor (fun y hy => ha y (List.mem_cons_of_mem _ hy))
          (fun y hy => hb y (List.mem_cons_of_mem _ hy)) x hx

/-- SubBytes produces bytes on any state. -/
theorem bytes_subBytes (s : List Nat) : Bytes (subBytes s) := by
  intro x hx
  rcases List.mem_map.mp hx with ⟨y, _, rfl⟩
  exact sub_lt y

/-- ShiftRows preserves bytes. -/
theorem bytes_shiftRows {s : List Nat} (h : Bytes s) : Bytes (shiftRows s) := by
  intro x hx
  simp only [shiftRows, List.mem_cons, List.not_mem_nil, or_false] at hx
  rcases hx with rfl | rfl | rfl | rfl | rfl | rfl | rfl | rfl | rfl | rfl | rfl | rfl | rfl | rfl | rfl | rfl <;>
    exact bytes_getD h _

/-- MixColumns of byte inputs is bytes. -/
theorem bytes_mixCol {a0 a1 a2 a3 : Nat} (h0 : a0 < 256) (h1 : a1 < 256) (h2 : a2 < 256)
    (h3 : a3 < 256) : Bytes (mixCol a0 a1 a2 a3) := by
  intro x hx
  simp only [mixCol, List.mem_cons, List.not_mem_nil, or_false] at hx
  rcases hx with rfl | rfl | rfl | rfl
  · exact xor_lt8 (xor_lt8 (xor_lt8 (m2_lt a0) (m3_lt h1)) h2) h3
  · exact xor_lt8 (xor_lt8 (xor_lt8 h0 (m2_lt a1)) (m3_lt h2)) h3
  · exact xor_lt8 (xor_lt8 (xor_lt8 h0 h1) (m2_lt a2)) (m3_lt h3)
  · exact xor_lt8 (xor_lt8 (xor_lt8 (m3_lt h0) h1) h2) (m2_lt a3)

/-- MixColumns preserves bytes. -/
theorem bytes_mixColumns {s : List Nat} (h : Bytes s) : Bytes (mixColumns s) := by
  unfold mixColumns
  exact bytes_append
    (bytes_append
      (bytes_append
        (bytes_mixCol (bytes_getD h 0) (bytes_getD h 1) (bytes_getD h 2) (bytes_getD h 3))
        (bytes_mixCol (bytes_getD h 4) (bytes_getD h 5) (bytes_getD h 6) (bytes_getD h 7)))
      (bytes_mixCol (bytes_getD h 8) (bytes_getD h 9) (bytes_getD h 10) (bytes_getD h 11)))
    (bytes_mixCol (bytes_getD h 12) (bytes_getD h 13) (bytes_getD h 14) (bytes_getD h 15))

/-- AddRoundKey preserves bytes. -/
theorem bytes_addRoundKey {s k : List Nat} (hs : Bytes s) (hk : Bytes k) :
    Bytes (addRoundKey s k) := bytes_zipWith_xor hs hk

/-- The empty list is a byte list. -/
theorem bytes_nil : Bytes [] := by intro x hx; cases hx

/-- XOR of two byte-list words is a byte-list word. -/
theorem bytes_xorW {a b : List Nat} (ha : Bytes a) (hb : Bytes b) : Bytes (xorW a b) :=
  bytes_zipWith_xor ha hb

/-- SubWord produces bytes on any word. -/
theorem bytes_subWord (w : List Nat) : Bytes (subWord w) := by
  intro x hx
  rcases List.mem_map.mp hx with ⟨y, _, rfl⟩
  exact sub_lt y

/-- The rcon word is a byte list. -/
theorem bytes_rconWord (i : Nat) : Bytes [rconB.getD i 0, 0, 0, 0] := by
  intro x hx
  have hr : ∀ y ∈ rconB, y < 256 := by decide
  simp only [List.mem_cons, List.not_mem_nil, or_false] at hx
  rcases hx with rfl | rfl | rfl | rfl
  · exact getD_prop (by norm_num) rconB hr _
  all_goals norm_num

/-- Every word produced by the key-expansion loop is a byte list. -/
theorem expandLoop_bytes (n : Nat) : ∀ (ws : List (List Nat)),
    (∀ w ∈ ws, Bytes w) → ∀ w ∈ expandLoop n ws, Bytes w := by
  induction n with
  | zero => intro ws h; exact h
  | succ n ih =>
      intro ws h
      simp only [expandLoop]
      apply ih
      intro w hw
      rcases List.mem_append.mp hw with hmem | hnew
      · exact h w hmem
      · rcases List.mem_singleton.mp hnew with rfl
        apply bytes_xorW (getD_prop bytes_nil ws h _)
        split
        · exact bytes_xorW (bytes_subWord _) (bytes_rconWord _)
        · exact getD_prop bytes_nil ws h _

/-- Round keys of a byte key are bytes. -/
theorem bytes_roundKey {key : List Nat} (hk : Bytes key) (r : Nat) :
    Bytes (roundKey (keySchedule key) r) := by
  have hinit : ∀ w ∈
      [[key.getD 0 0, key.getD 1 0, key.getD 2 0, key.getD 3 0],
       [key.getD 4 0, key.getD 5 0, key.getD 6 0, key.getD 7 0],
       [key.getD 8 0, key.getD 9 0, key.getD 10 0, key.getD 11 0],
       [key.getD 12 0, key.getD 13 0, key.getD 14 0, key.getD 15 0]], Bytes w := by
    intro w hw
    simp only [List.mem_cons, List.not_mem_nil, or_false] at hw
    rcases hw with rfl | rfl | rfl | rfl <;>
      · intro x hx
        simp only [List.mem_cons, List.not_mem_nil, or_false] at hx
        rcases hx with rfl | rfl | rfl | rfl <;> exact bytes_getD hk _
  have hws : ∀ w ∈ keySchedule key, Bytes w := by
    simp only [keySchedule]
    exact expandLoop_bytes 40 _ hinit
  simp only [roundKey]
  exact bytes_append
    (bytes_append
      (bytes_append (getD_prop bytes_nil _ hws _) (getD_prop bytes_nil _ hws _))
      (getD_prop bytes_nil _ hws _))
    (getD_prop bytes_nil _ hws _)

/-- A fold of byte-preserving steps preserves bytes. -/
theorem foldl_bytes {f : List Nat → Nat → List Nat}
    (hf : ∀ st r, Bytes st → Bytes (f st r)) :
    ∀ (l : List Nat) (st : List Nat), Bytes st → Bytes (List.foldl f st l)
  | [], _, h => h
  | r :: l, st, h => foldl_bytes hf l (f st r) (hf st r h)

/-- AES encryption of byte inputs produces bytes. -/
theorem bytes_aesEncryptBlock {key block : List Nat} (hk : Bytes key) (hb : Bytes block) :
    Bytes (aesEncryptBlock key block) := by
  have hmain : Bytes ((List.range 9).foldl
      (fun st r => addRoundKey (mixColumns (shiftRows (subBytes st)))
        (roundKey (keySchedule key) (r + 1)))
      (addRoundKey block (roundKey (keySchedule key) 0))) := by
    apply foldl_bytes
    · intro st r hst
      exact bytes_addRoundKey (bytes_mixColumns (bytes_shiftRows (bytes_subBytes st)))
        (bytes_roundKey hk (r + 1))
    · exact bytes_addRoundKey hb (bytes_roundKey hk 0)
  exact bytes_addRoundKey (bytes_shiftRows (bytes_subBytes _)) (bytes_roundKey hk 10)

/-- The zero-padded password block of a byte password is bytes. -/
theorem bytes_pwBlock {pw : List Nat} (h : Bytes pw) : Bytes (pwBlock pw) := by
  intro x hx
  rcases List.mem_map.mp hx with ⟨i, _, rfl⟩
  exact bytes_getD h i

/-- The derived AES key of a byte password is bytes. -/
theorem bytes_aesKey128 {pw : List Nat} (h : Bytes pw) : Bytes (aesKey128 pw) :=
  bytes_aesEncryptBlock (bytes_pwBlock h) (bytes_pwBlock h)

/-- Big-endian counters are bytes. -/
theorem bytes_be64 (n : Nat) : Bytes (be64 n) := by
  intro x hx
  simp only [be64, List.mem_cons, List.not_mem_nil, or_false] at hx
  rcases hx with rfl | rfl | rfl | rfl | rfl | rfl | rfl | rfl <;>
    exact Nat.mod_lt _ (by norm_num)

/-- The CTR nonce is bytes. -/
theorem bytes_mkNonce (nowMs rnd : Nat) : Bytes (mkNonce nowMs rnd) := by
  intro x hx
  simp only [mkNonce, List.mem_cons, List.not_mem_nil, or_false] at hx
  rcases hx with rfl | rfl | rfl | rfl | rfl | rfl | rfl | rfl <;>
    exact Nat.mod_lt _ (by norm_num)

/-- The CTR nonce is 8 bytes long. -/
theorem length_mkNonce (nowMs rnd : Nat) : (mkNonce nowMs rnd).length = 8 := rfl

/-- The keystream has the requested length. -/
theorem length_keystream (key nonce : List Nat) (len : Nat) :
    (keystream key nonce len).length = len := by
  simp [keystream]

/-- The keystream of byte key and nonce is bytes. -/
theorem bytes_keystream {key nonce : List Nat} (hk : Bytes key) (hn : Bytes nonce)
    (len : Nat) : Bytes (keystream key nonce len) := by
  intro x hx
  rcases List.mem_map.mp hx with ⟨i, _, rfl⟩
  exact bytes_getD (bytes_aesEncryptBlock hk (bytes_append hn (bytes_be64 (i / 16)))) _

/-- CTR masking preserves length. -/
theorem length_ctrXor (key nonce data : List Nat) : (ctrXor key nonce data).length = data.length := by
  simp [ctrXor, length_keystream]

/-- CTR masking of byte data with byte key/nonce is bytes. -/
theorem bytes_ctrXor {key nonce data : List Nat} (hk : Bytes key) (hn : Bytes nonce)
    (hd : Bytes data) : Bytes (ctrXor key nonce data) :=
  bytes_zipWith_xor hd (bytes_keystream hk hn _)

/-- Double XOR against the same stream is the identity (stream at least as
long as the data). -/
theorem zipWith_xor_cancel : ∀ (m ks : List Nat), m.length ≤ ks.length →
    List.zipWith Nat.xor (List.zipWith Nat.xor m ks) ks = m
  | [], _, _ => by simp
  | _ :: _, [], h => by simp at h
  | a :: m, s :: ks, h => by
      simp only [List.zipWith_cons_cons, List.cons.injEq]
      exact ⟨Nat.xor_cancel_right s a, zipWith_xor_cancel m ks (by simpa using h)⟩

/-- CTR decryption un-does CTR encryption with the same key and nonce. -/
theorem ctrXor_cancel (key nonce m : List Nat) :
    ctrXor key nonce (ctrXor key nonce m) = m := by
  unfold ctrXor
  rw [List.length_zipWith, length_keystream, Nat.min_self]
  exact zipWith_xor_cancel m _ (by rw [length_keystream])

/-- Looking up the i-th entry of the standard alphabet finds index i. -/
theorem idx_std : ∀ i < 64, idxOf b64tableStd (b64tableStd.getD i 0) = some i := by decide

/-- Looking up the i-th entry of the url-safe alphabet finds index i. -/
theorem idx_url : ∀ i < 64, idxOf b64tableUrl (b64tableUrl.getD i 0) = some i := by decide

/-- No alphabet entry is the padding character. -/
theorem ne61_std : ∀ i < 64, b64tableStd.getD i 0 ≠ 61 := by decide

/-- No url-safe alphabet entry is the padding character. -/
theorem ne61_url : ∀ i < 64, b64tableUrl.getD i 0 ≠ 61 := by decide

/-- Base64 decoding inverts encoding on byte lists (any alphabet whose
64 entries are pairwise distinct and free of the padding character). -/
theorem b64_decode_encode (tbl : List Nat)
    (hidx : ∀ i < 64, idxOf tbl (tbl.getD i 0) = some i)
    (hne : ∀ i < 64, tbl.getD i 0 ≠ 61) :
    ∀ l : List Nat, Bytes l → b64decodeWith tbl (b64encodeWith tbl l) = some l
  | [], _ => rfl
  | [a], h => by
      have ha : a < 256 := h a (List.mem_cons_self _ _)
      simp only [b64encodeWith, b64decodeWith,
        hidx (a / 4) (by omega), hidx (a % 4 * 16) (by omega)]
      rw [if_pos ⟨trivial, trivial, trivial⟩]
      have : a / 4 * 4 + a % 4 * 16 / 16 = a := by omega
      rw [this]
  | [a, b], h => by
      have ha : a < 256 := h a (List.mem_cons_self _ _)
      have hb : b < 256 := h b (List.mem_cons_of_mem _ (List.mem_cons_self _ _))
      simp only [b64encodeWith, b64decodeWith,
        hidx (a / 4) (by omega), hidx (a % 4 * 16 + b / 16) (by omega),
        hidx (b % 16 * 4) (by omega)]
      rw [if_neg (by intro hcon; exact hne (b % 16 * 4) (by omega) hcon.1)]
      rw [if_pos ⟨trivial, trivial⟩]
      have h1 : a / 4 * 4 + (a % 4 * 16 + b / 16) / 16 = a := by omega
      have h2 : (a % 4 * 16 + b / 16) % 16 * 16 + b % 16 * 4 / 4 = b := by omega
      rw [h1, h2]
  | a :: b :: c :: rest, h => by
      have ha : a < 256 := h a (List.mem_cons_self _ _)
      have hb : b < 256 := h b (List.mem_cons_of_mem _ (List.mem_cons_self _ _))
      have hc : c < 256 := h c (List.mem_cons_of_mem _ (List.mem_cons_of_mem _ (List.mem_cons_self _ _)))
      have hrest : Bytes rest := fun y hy =>
        h y (List.mem_cons_of_mem _ (List.mem_cons_of_mem _ (List.mem_cons_of_mem _ hy)))
      simp only [b64encodeWith, b64decodeWith,
        hidx (a / 4) (by omega), hidx (a % 4 * 16 + b / 16) (by omega),
        hidx (b % 16 * 4 + c / 64) (by omega), hidx (c % 64) (by omega)]
      rw [if_neg (by intro hcon; exact hne (b % 16 * 4 + c / 64) (by omega) hcon.1)]
      rw [if_neg (by intro hcon; exact hne (c % 64) (by omega) hcon.1)]
      rw [b64_decode_encode tbl hidx hne rest hrest]
      have h1 : a / 4 * 4 + (a % 4 * 16 + b / 16) / 16 = a := by omega
      have h2 : (a % 4 * 16 + b / 16) % 16 * 16 + (b % 16 * 4 + c / 64) / 4 = b := by omega
      have h3 : (b % 16 * 4 + c / 64) % 4 * 64 + c % 64 = c := by omega
      simp [h1, h2, h3]

/-- Base64 output never contains a double quote. -/
theorem b64_noQuote (tbl : List Nat) (hq : ∀ y ∈ tbl, y ≠ 34) :
    ∀ l : List Nat, 34 ∉ b64encodeWith tbl l
  | [] => fun hx => absurd hx (List.not_mem_nil 34)
  | [a] => by
      simp only [b64encodeWith, List.mem_cons, List.not_mem_nil, or_false]
      push_neg
      refine ⟨?_, ?_, by norm_num, by norm_num⟩ <;>
        exact fun hcon => getD_prop (by norm_num) tbl (fun y hy => hq y hy) _ hcon.symm
  | [a, b] => by
      simp only [b64encodeWith, List.mem_cons, List.not_mem_nil, or_false]
      push_neg
      refine ⟨?_, ?_, ?_, by norm_num⟩ <;>
        exact fun hcon => getD_prop (by norm_num) tbl (fun y hy => hq y hy) _ hcon.symm
  | a :: b :: c :: rest => by
      simp only [b64encodeWith, List.mem_cons]
      push_neg
      refine ⟨?_, ?_, ?_, ?_, b64_noQuote tbl hq rest⟩ <;>
        exact fun hcon => getD_prop (by norm_num) tbl (fun y hy => hq y hy) _ hcon.symm

/-- Dropping a leading non-pad byte commutes with stripping trailing pads. -/
theorem rstripEq_cons {c : Nat} (hc : c ≠ 61) (t : List Nat) :
    rstripEq (c :: t) = c :: rstripEq t := by
  unfold rstripEq
  rw [show (c :: t).reverse = t.reverse ++ [c] from by simp]
  rw [List.dropWhile_append]
  by_cases hemp : (t.reverse.dropWhile (fun x => decide (x = 61))).isEmpty
  · rw [if_pos hemp, List.isEmpty_iff.mp hemp]
    simp [List.dropWhile, hc]
  · rw [if_neg hemp]
    simp

/-- Stripping the padding of a padded base64 encoding yields the unpadded
encoding (byte input; alphabet free of the padding character). -/
theorem rstrip_encode (tbl : List Nat) (hne : ∀ i < 64, tbl.getD i 0 ≠ 61) :
    ∀ l : List Nat, Bytes l → rstripEq (b64encodeWith tbl l) = b64encodeNoPad tbl l
  | [], _ => rfl
  | [a], h => by
      have ha : a < 256 := h a (List.mem_cons_self _ _)
      simp only [b64encodeWith, b64encodeNoPad]
      rw [rstripEq_cons (hne (a / 4) (by omega)), rstripEq_cons (hne (a % 4 * 16) (by omega))]
      rfl
  | [a, b], h => by
      have ha : a < 256 := h a (List.mem_cons_self _ _)
      have hb : b < 256 := h b (List.mem_cons_of_mem _ (List.mem_cons_self _ _))
      simp only [b64encodeWith, b64encodeNoPad]
      rw [rstripEq_cons (hne (a / 4) (by omega)), rstripEq_cons (hne (a % 4 * 16 + b / 16) (by omega)),
        rstripEq_cons (hne (b % 16 * 4) (by omega))]
      rfl
  | a :: b :: c :: rest, h => by
      have ha : a < 256 := h a (List.mem_cons_self _ _)
      have hb : b < 256 := h b (List.mem_cons_of_mem _ (List.mem_cons_self _ _))
      have hc : c < 256 := h c (List.mem_cons_of_mem _ (List.mem_cons_of_mem _ (List.mem_cons_self _ _)))
      have hrest : Bytes rest := fun y hy =>
        h y (List.mem_cons_of_mem _ (List.mem_cons_of_mem _ (List.mem_cons_of_mem _ hy)))
      simp only [b64encodeWith, b64encodeNoPad]
      rw [rstripEq_cons (hne (a / 4) (by omega)),
        rstripEq_cons (hne (a % 4 * 16 + b / 16) (by omega)),
        rstripEq_cons (hne (b % 16 * 4 + c / 64) (by omega)),
        rstripEq_cons (hne (c % 64) (by omega)),
        rstrip_encode tbl hne rest hrest]

/-- SHA-256 digests are byte lists. -/
theorem bytes_sha256 (msg : List Nat) : Bytes (sha256 msg) := by
  intro x hx
  rcases List.mem_flatMap.mp hx with ⟨w, _, hw⟩
  simp only [wordToBytesBE, List.mem_cons, List.not_mem_nil, or_false] at hw
  rcases hw with rfl | rfl | rfl | rfl <;> exact Nat.mod_lt _ (by norm_num)

/-- HMAC-SHA256 digests are byte lists. -/
theorem bytes_hmacSha256 (key msg : List Nat) : Bytes (hmacSha256 key msg) :=
  bytes_sha256 _

/-- The PBKDF2 U-chain accumulator stays a byte list. -/
theorem bytes_pbkdf2Us (pw : List Nat) :
    ∀ (n : Nat) (u acc : List Nat), Bytes acc → Bytes (pbkdf2Us pw n u acc)
  | 0, _, _, h => h
  | n + 1, u, acc, h =>
      bytes_pbkdf2Us pw n _ _ (bytes_zipWith_xor h (bytes_hmacSha256 pw u))

/-- PBKDF2 output blocks are byte lists. -/
theorem bytes_pbkdf2Block (pw salt : List Nat) (c i : Nat) :
    Bytes (pbkdf2Block pw salt c i) :=
  bytes_pbkdf2Us pw (c - 1) _ _ (bytes_hmacSha256 pw _)

/-- PBKDF2 derived keys are byte lists. -/
theorem bytes_pbkdf2 (pw salt : List Nat) (c dkLen : Nat) :
    Bytes (pbkdf2HmacSha256 pw salt c dkLen) := by
  intro x hx
  have hx' := List.mem_of_mem_take hx
  rcases List.mem_flatten.mp hx' with ⟨blk, hblk, hxblk⟩
  rcases List.mem_map.mp hblk with ⟨j, _, rfl⟩
  exact bytes_pbkdf2Block pw salt c (j + 1) x hxblk

/-- Hex digits are never the double-quote character. -/
theorem hexDigit_ne34 (n : Nat) : hexDigit n ≠ 34 := by
  unfold hexDigit
  split <;> omega

/-- Hex output never contains a double quote. -/
theorem hex_noQuote (l : List Nat) : 34 ∉ hexBytes l := by
  intro hx
  rcases List.mem_flatMap.mp hx with ⟨b, _, hb⟩
  simp only [List.mem_cons, List.not_mem_nil, or_false] at hb
  rcases hb with h | h <;> exact hexDigit_ne34 _ h.symm

/-- Reading up to a quote recovers a quote-free chunk and the rest. -/
theorem readUntilQuote_append : ∀ (s rest : List Nat), 34 ∉ s →
    readUntilQuote (s ++ 34 :: rest) = some (s, rest)
  | [], rest, _ => by simp [readUntilQuote]
  | c :: s, rest, h => by
      have hc : c ≠ 34 := fun hcon => h (hcon ▸ List.mem_cons_self _ _)
      have hs : 34 ∉ s := fun hcon => h (List.mem_cons_of_mem _ hcon)
      simp only [List.cons_append, readUntilQuote, if_neg hc, List.append_eq,
        readUntilQuote_append s rest hs, Option.map_some']

/-- Length of one serialized pair. -/
theorem serializePair_length (kv : List Nat × List Nat) :
    (serializePair kv).length = kv.1.length + kv.2.length + 6 := by
  simp only [serializePair, List.length_cons, List.length_append, List.length_nil]
  omega

/-- Parsing inverts serialization of a non-empty quote-free pair list,
given enough fuel. -/
theorem parsePairs_serialize : ∀ (l : List (List Nat × List Nat)) (fuel : Nat),
    (∀ kv ∈ l, 34 ∉ kv.1 ∧ 34 ∉ kv.2) → l ≠ [] →
    (serializePairs l).length + 1 ≤ fuel →
    parsePairs fuel (serializePairs l ++ [125]) = some l
  | [], _, _, hne, _ => absurd rfl hne
  | [kv], fuel, hq, _, hfuel => by
      have hk := (hq kv (List.mem_cons_self _ _)).1
      have hv := (hq kv (List.mem_cons_self _ _)).2
      match fuel, hfuel with
      | fuel + 1, _ =>
        show parsePairs (fuel + 1) (serializePair kv ++ [125]) = some [kv]
        have hshape : serializePair kv ++ [125] =
            34 :: (kv.1 ++ 34 :: (58 :: 32 :: 34 :: (kv.2 ++ 34 :: [125]))) := by
          simp [serializePair]
        rw [hshape]
        simp only [parsePairs, readUntilQuote_append kv.1 _ hk,
          readUntilQuote_append kv.2 _ hv]
  | kv :: kv2 :: rest, fuel, hq, _, hfuel => by
      have hk := (hq kv (List.mem_cons_self _ _)).1
      have hv := (hq kv (List.mem_cons_self _ _)).2
      have hq' : ∀ p ∈ kv2 :: rest, 34 ∉ p.1 ∧ 34 ∉ p.2 :=
        fun p hp => hq p (List.mem_cons_of_mem _ hp)
      have hlen : (serializePairs (kv :: kv2 :: rest)).length =
          (serializePair kv).length + 2 + (serializePairs (kv2 :: rest)).length := by
        show (serializePair kv ++ [44, 32] ++ serializePairs (kv2 :: rest)).length = _
        simp
        omega
      match fuel, hfuel with
      | fuel + 1, hfuel =>
        have hrec : parsePairs fuel (serializePairs (kv2 :: rest) ++ [125]) =
            some (kv2 :: rest) := by
          apply parsePairs_serialize (kv2 :: rest) fuel hq' (by simp)
          rw [hlen] at hfuel
          have := serializePair_length kv
          omega
        show parsePairs (fuel + 1)
            ((serializePair kv ++ [44, 32] ++ serializePairs (kv2 :: rest)) ++ [125]) =
            some (kv :: kv2 :: rest)
        have hshape : (serializePair kv ++ [44, 32] ++ serializePairs (kv2 :: rest)) ++ [125] =
            34 :: (kv.1 ++ 34 :: (58 :: 32 :: 34 ::
              (kv.2 ++ 34 :: (44 :: 32 :: (serializePairs (kv2 :: rest) ++ [125]))))) := by
          simp [serializePair]
        rw [hshape]
        simp only [parsePairs, readUntilQuote_append kv.1 _ hk,
          readUntilQuote_append kv.2 _ hv]
        rw [hrec]
        rfl

/-- `json.loads` inverts `json.dumps` on non-empty quote-free flat string
dicts. -/
theorem parse_serializeFlatObj (l : List (List Nat × List Nat))
    (hq : ∀ kv ∈ l, 34 ∉ kv.1 ∧ 34 ∉ kv.2) (hne : l ≠ []) :
    parseFlatObj (serializeFlatObj l) = some l := by
  simp only [serializeFlatObj, parseFlatObj]
  apply parsePairs_serialize l _ hq hne
  simp

/-- AES-CTR decryption recovers the plaintext from an encryption whenever
the decryption key derives the same AES key (in particular with the same
key). -/
theorem aesctr_decrypt_encrypt (m k kd : List Nat) (hm : Bytes m) (hk : Bytes k)
    (hkey : aesKey128 kd = aesKey128 k) (nowMs rnd : Nat) :
    AesCtr.decrypt (AesCtr.encrypt m k nowMs rnd) kd = some m := by
  unfold AesCtr.encrypt AesCtr.decrypt
  rw [b64_decode_encode b64tableStd idx_std ne61_std _
    (bytes_append (bytes_mkNonce nowMs rnd)
      (bytes_ctrXor (bytes_aesKey128 hk) (bytes_mkNonce nowMs rnd) hm))]
  simp only [Option.map_some']
  rw [List.take_left' (length_mkNonce nowMs rnd), List.drop_left' (length_mkNonce nowMs rnd),
    hkey, ctrXor_cancel]

/-- `decrypt_and_verify` recovers the plaintext from `encrypt_and_sign`
whenever the verifying key derives the same AES key and the same HMAC as
the signing key. -/
theorem dv_es_keyCompat (m k kd : List Nat) (hm : Bytes m) (hk : Bytes k)
    (hkey : aesKey128 kd = aesKey128 k) (hh : hmacSha256 kd m = hmacSha256 k m)
    (nowMs rnd : Nat) :
    MySecurity.decrypt_and_verify (MySecurity.encrypt_and_sign m k nowMs rnd) kd = some m := by
  have hq : ∀ kv ∈ [(ascii "cipher", MySecurity.encrypt m k nowMs rnd),
      (ascii "hash", MySecurity.hash m k)], 34 ∉ kv.1 ∧ 34 ∉ kv.2 := by
    intro kv hkv
    simp only [List.mem_cons, List.not_mem_nil, or_false] at hkv
    rcases hkv with rfl | rfl
    · refine ⟨?_, ?_⟩
      · show 34 ∉ ascii "cipher"
        decide
      · show 34 ∉ MySecurity.encrypt m k nowMs rnd
        unfold MySecurity.encrypt AesCtr.encrypt
        exact b64_noQuote b64tableStd (by decide) _
    · refine ⟨?_, ?_⟩
      · show 34 ∉ ascii "hash"
        decide
      · show 34 ∉ MySecurity.hash m k
        unfold MySecurity.hash
        exact hex_noQuote _
  have hC : objGet [(ascii "cipher", MySecurity.encrypt m k nowMs rnd),
      (ascii "hash", MySecurity.hash m k)] (ascii "cipher") =
      some (MySecurity.encrypt m k nowMs rnd) := rfl
  have hH : objGet [(ascii "cipher", MySecurity.encrypt m k nowMs rnd),
      (ascii "hash", MySecurity.hash m k)] (ascii "hash") =
      some (MySecurity.hash m k) := rfl
  have hdec : MySecurity.decrypt (MySecurity.encrypt m k nowMs rnd) kd = some m := by
    unfold MySecurity.decrypt MySecurity.encrypt
    exact aesctr_decrypt_encrypt m k kd hm hk hkey nowMs rnd
  have hhash : MySecurity.hash m kd = MySecurity.hash m k := by
    unfold MySecurity.hash
    rw [hh]
  unfold MySecurity.encrypt_and_sign MySecurity.decrypt_and_verify
  rw [parse_serializeFlatObj _ hq (by simp)]
  simp only [hC, hH, hdec, hhash, Option.getD_some]
  simp

/-- Appending a NUL byte does not change default-guarded lookups. -/
theorem getD_append_zero : ∀ (k : List Nat) (i : Nat), (k ++ [0]).getD i 0 = k.getD i 0
  | [], 0 => rfl
  | [], _ + 1 => by simp [List.getD]
  | _ :: _, 0 => rfl
  | _ :: k, i + 1 => getD_append_zero k i

/-- The zero-padded password block ignores a trailing NUL byte. -/
theorem pwBlock_append_zero (k : List Nat) : pwBlock (k ++ [0]) = pwBlock k := by
  unfold pwBlock
  exact List.map_congr_left (fun i _ => getD_append_zero k i)

/-- The derived AES key ignores a trailing NUL byte. -/
theorem aesKey128_append_zero (k : List Nat) : aesKey128 (k ++ [0]) = aesKey128 k := by
  unfold aesKey128
  rw [pwBlock_append_zero]

/-- HMAC-SHA256 ignores a trailing NUL byte of a key shorter than the
64-byte block (both keys zero-pad to the same block). -/
theorem hmacSha256_append_zero {k : List Nat} (hlen : k.length ≤ 63) (msg : List Nat) :
    hmacSha256 (k ++ [0]) msg = hmacSha256 k msg := by
  unfold hmacSha256
  rw [if_neg (by simp; omega), if_neg (by omega)]
  have hpad : (k ++ [0]) ++ List.replicate (64 - (k ++ [0]).length) 0 =
      k ++ List.replicate (64 - k.length) 0 := by
    rw [List.append_assoc]
    congr 1
    have h1 : (64 - k.length) = (64 - (k ++ [0]).length) + 1 := by simp; omega
    rw [h1, List.replicate_succ]
    rfl
  simp only [hpad]

/-! # Claim theorems -/

/-- Claim C1 (counterexample): the claim says that after `disconnect()`
returns true the channel secret is null; on `stC1` the call returns true
yet the channel secret is still set (neither `AgentConnection.disconnect`
nor `MessagingChannelApi.disconnect` clears it). -/
theorem C1_disconnect_keeps_channel_secret_cex :
    (AgentConnection.disconnect stC1 (some true)).2 = true ∧
    (AgentConnection.disconnect stC1 (some true)).1.channel_secret ≠ none := by decide

/-- Claim C1 (amended): after `disconnect()` returns true, the session id is
null, the pending RSA private key and key pair are null, and the UDP socket
has been closed; the channel secret is left unchanged (it is not cleared). -/
theorem C1_disconnect_postconditions (st : AgentState) (server : Option Bool)
    (h : (AgentConnection.disconnect st server).2 = true) :
    (AgentConnection.disconnect st server).1.session_id = none ∧
    (AgentConnection.disconnect st server).1.pending_private_key = none ∧
    (AgentConnection.disconnect st server).1.key_pair = none ∧
    (AgentConnection.disconnect st server).1.api.udp_closed = true ∧
    (AgentConnection.disconnect st server).1.channel_secret = st.channel_secret := by
  rcases server with _ | ok
  · exfalso
    unfold AgentConnection.disconnect MessagingChannelApi.disconnect at h
    by_cases hr : AgentConnection.is_ready st <;> simp [hr] at h
  · by_cases hr : AgentConnection.is_ready st
    · rcases ok with _ | _
      · exfalso
        unfold AgentConnection.disconnect MessagingChannelApi.disconnect at h
        simp [hr] at h
      · unfold AgentConnection.disconnect MessagingChannelApi.disconnect
        simp [hr]
    · exfalso
      unfold AgentConnection.disconnect MessagingChannelApi.disconnect at h
      simp [hr] at h

/-- Witness for C1 at the concrete state `stC1`. -/
theorem C1_disconnect_postconditions_witness :
    (AgentConnection.disconnect stC1 (some true)).1.session_id = none ∧
    (AgentConnection.disconnect stC1 (some true)).1.pending_private_key = none ∧
    (AgentConnection.disconnect stC1 (some true)).1.key_pair = none ∧
    (AgentConnection.disconnect stC1 (some true)).1.api.udp_closed = true ∧
    (AgentConnection.disconnect stC1 (some true)).1.channel_secret = stC1.channel_secret :=
  C1_disconnect_postconditions stC1 (some true) (by decide)

/-- Claim C2 (code bug): an incoming encrypted event whose content fails
`decrypt_and_verify` under the current secret is still delivered and
nothing is raised, but the `MessagingChannelApi` receive path does NOT
leave it untouched: the content is overwritten with `None` and the
encrypted flag is cleared (the guarded `AgentConnection`-level helper, by
contrast, preserves the event, which is what the claim describes). -/
theorem C2_failed_decrypt_event_clobbered :
    decryptAndVerifyOpt (evC2.content.getD []) apiC2.channel_secret = none ∧
    (MessagingChannelApi.receiveSuccess apiC2 { events := [evC2] }).events =
      [{ evC2 with content := none, encrypted := false }] ∧
    AgentConnection.verify_and_decrypt_message apiC2.channel_secret evC2 = evC2 := by
  refine ⟨rfl, by decide, by decide⟩

/-- Claim C3 (code bug): on the specified mock connect response the
channel id is captured and the channel secret is derived, but
`MessagingChannelApi.connect` builds `ChannelState` without the offset
fields, so `current_receive_config` comes out `(0, 0, 20)` instead of the
claimed `(42, 7, 20)` (`initial_receive_config` is `(0, 0, 20)` as
claimed, but only via the offsets-absent fallback). -/
theorem C3_connect_drops_state_offsets :
    resC3.2.2 = Except.ok true ∧
    resC3.1.channel_id = some (ascii "C1") ∧
    resC3.1.initial_receive_config =
      some { globalOffset := some 0, localOffset := some 0, limit := some 20 } ∧
    resC3.1.current_receive_config =
      some { globalOffset := some 0, localOffset := some 0, limit := some 20 } ∧
    resC3.1.channel_secret.isSome = true :=
  ⟨rfl, by decide, by decide, by decide, rfl⟩

/-- Claim C4 (code bug): with three active agents of connectionTime
100/200/300, `is_host_agent` returns true for EVERY ready agent — not only
for the earliest — because `AgentInfo` has no `connectionTime` attribute
(the wire value sits unused inside `meta`), so the election loop never
sees a time. -/
theorem C4_every_ready_agent_is_host :
    AgentConnection.is_host_agent (stC4 "a1") (some agentsC4) = true ∧
    AgentConnection.is_host_agent (stC4 "a2") (some agentsC4) = true ∧
    AgentConnection.is_host_agent (stC4 "a3") (some agentsC4) = true := by decide

/-- Claim C5 (counterexample): the claim's second half says
`decryptAndVerify(encryptAndSign(m,k), kd) == null` for every `kd ≠ k`;
but `kd = k ++ "\x00"` is a different key that zero-pads to the same AES
key block and the same HMAC block, so the plaintext is recovered. -/
theorem C5_different_key_recovers_plaintext_cex :
    kW ++ [0] ≠ kW ∧
    MySecurity.decrypt_and_verify (MySecurity.encrypt_and_sign mW kW 5 6) (kW ++ [0]) = some mW :=
  ⟨by decide, dv_es_keyCompat mW kW (kW ++ [0]) (by decide) (by decide)
      (aesKey128_append_zero kW) (hmacSha256_append_zero (by decide) mW) 5 6⟩

/-- Claim C5 (amended): for every plaintext `m` and key `k` (and any
nonce / randomness), `decryptAndVerify(encryptAndSign(m, k), k) == m`; the
null-on-different-key clause holds only for keys that differ after the
zero-paddings, not for every `kd ≠ k`. -/
theorem C5_encrypt_sign_roundtrip (m k : List Nat) (hm : Bytes m) (hk : Bytes k)
    (nowMs rnd : Nat) :
    MySecurity.decrypt_and_verify (MySecurity.encrypt_and_sign m k nowMs rnd) k = some m :=
  dv_es_keyCompat m k k hm hk rfl rfl nowMs rnd

/-- Witness for C5 at concrete plaintext, key and nonce. -/
theorem C5_encrypt_sign_roundtrip_witness :
    MySecurity.decrypt_and_verify (MySecurity.encrypt_and_sign mW kW 5 6) kW = some mW :=
  C5_encrypt_sign_roundtrip mW kW (by decide) (by decide) 5 6

/-- Claim C6 (confirmed): `derive_channel_secret` is deterministic (it is a
pure function of its two arguments) and equals PBKDF2-HMAC-SHA256 over
channelName ‖ password with salt "messaging-platform", 100,000 iterations
and 32-byte output, base64url-encoded without padding and prefixed
`channel_` — the spec-modelled formula `deriveChannelSecretSpec`. -/
theorem C6_derive_channel_secret_matches_spec (name password : List Nat) :
    MySecurity.derive_channel_secret name password = deriveChannelSecretSpec name password := by
  unfold MySecurity.derive_channel_secret deriveChannelSecretSpec
  rw [rstrip_encode b64tableUrl ne61_url _ (bytes_pbkdf2 _ _ _ _)]

/-- Claim C7 (code bug): a password-reply whose JSON content carries
`requestId = "R2"` while the pending request is `"R1"` is correctly
skipped by the blocking wait filter, but the receive pump's auto-intercept
(`_handle_password_reply`) never compares request ids: it RSA-decrypts the
ciphertext and installs the channel password and secret anyway. -/
theorem C7_auto_intercept_ignores_request_id_mismatch :
    waitPasswordReplyAccepts (some (ascii "bob")) (some 10) (some (ascii "R1")) evC7 = none ∧
    resC7.2 = [ReplyEffect.rsaDecrypt (ascii "QUJD")] ∧
    resC7.1.channel_password = some (ascii "pw123") ∧
    resC7.1.channel_secret.isSome = true :=
  ⟨by decide, by decide, by decide, rfl⟩

/-- Claim C8 (counterexample): the claim says offsets are promoted after
every successful pull, including one with an empty events array or only
ephemeral events; on `respC8` (empty `events`, one ephemeral event, fresh
next offsets) the pump's offset range is left unchanged. -/
theorem C8_empty_events_pull_not_promoted_cex :
    (AgentConnection.runReceiveStep cfgC8 (some respC8)).1 = cfgC8 ∧
    respC8.nextGlobalOffset = some 5 ∧ cfgC8.globalOffset ≠ some 5 ∧
    respC8.nextLocalOffset = some 3 ∧ cfgC8.localOffset ≠ some 3 := by decide

/-- Claim C8 (amended): after a successful pull the offsets are promoted to
`nextGlobalOffset` / `nextLocalOffset` (each retained when absent) ONLY
when the persistent `events` array is non-empty; when it is empty — even
with ephemeral events present — the offset range is unchanged. -/
theorem C8_offsets_promoted_only_with_events (cfg : ReceiveConfig) (r : EventMessageResult) :
    (AgentConnection.runReceiveStep cfg (some r)).1 =
      if r.events.isEmpty then cfg
      else { cfg with
             globalOffset := match r.nextGlobalOffset with
                             | some g => some g
                             | none => cfg.globalOffset,
             localOffset := match r.nextLocalOffset with
                            | some l => some l
                            | none => cfg.localOffset } := by
  unfold AgentConnection.runReceiveStep
  by_cases he : r.events.isEmpty <;> simp [he]

/-- Claim C9 (confirmed): calling connect while READY (ready flag and a
session id) raises "already connected" immediately: no session-recovery
lookup, no RSA key generation, no wire request, and the state is returned
unchanged. -/
theorem C9_connect_rejected_when_ready (st : AgentState)
    (channel_id channel_name channel_password : Option (List Nat)) (agent_name : List Nat)
    (sessLoad : Option (List Nat)) (keyGen : Option RsaKeyPair)
    (createChannel : Option (List Nat)) (server : Option ConnectData)
    (hready : st.ready_state = true) (hsess : st.session_id.isSome = true) :
    AgentConnection.connect_internal st channel_id channel_name channel_password agent_name
      sessLoad keyGen createChannel server =
      (st, [], Except.error (ascii "already connected")) := by
  unfold AgentConnection.connect_internal
  simp [hready, hsess]

/-- Witness for C9 at the concrete READY state `stC9`. -/
theorem C9_connect_rejected_when_ready_witness :
    AgentConnection.connect_internal stC9 none (some (ascii "n")) (some (ascii "p"))
      (ascii "a") none none none none =
      (stC9, [], Except.error (ascii "already connected")) :=
  C9_connect_rejected_when_ready stC9 none (some (ascii "n")) (some (ascii "p")) (ascii "a")
    none none none none (by decide) (by decide)

/-- Claim C10 (confirmed): the AES-CTR cipher key depends only on the
first 16 UTF-8 bytes of the passphrase (zero-padded password block): for
any two passphrases with equal zero-padded 16-byte blocks, decrypting
with the second recovers what was encrypted with the first, for every
plaintext and every nonce/time/randomness choice. -/
theorem C10_cipher_depends_on_first16_key_bytes (m k1 k2 : List Nat)
    (hm : Bytes m) (hk1 : Bytes k1) (hpw : pwBlock k2 = pwBlock k1) (nowMs rnd : Nat) :
    AesCtr.decrypt (AesCtr.encrypt m k1 nowMs rnd) k2 = some m :=
  aesctr_decrypt_encrypt m k1 k2 hm hk1 (by unfold aesKey128; rw [hpw]) nowMs rnd

/-- Witness for C10: two distinct keys agreeing on their first 16 bytes. -/
theorem C10_cipher_depends_on_first16_key_bytes_witness :
    k1W ≠ k2W ∧ AesCtr.decrypt (AesCtr.encrypt mW k1W 7 8) k2W = some mW :=
  ⟨by decide, C10_cipher_depends_on_first16_key_bytes mW k1W k2W
      (by decide) (by decide) (by decide) 7 8⟩
